import Mathlib

/-
Verification of the payflow document/signature lifecycle engine.

The definitions below are a shallow embedding of the tRPC routers of the
repository:

  * `signaturesRouter` (enhanced variant): `sign`, `decline`,
    `cancelSignatures`
  * `signaturesRouter` (simple variant): `signSimple`, `declineSimple`
  * `documentsRouter` (enhanced variant): `createDocument`, `updateStatus`,
    `batchUpdateStatus`

Database tables are lists of records; each Prisma statement
(`findUnique`, `findFirst`, `findMany`, `update`, `updateMany`, `create`)
becomes a pure function on the `DB` state.  Timestamps are naturals and
`new Date()` becomes an explicit `now` parameter.  File metadata fields
(fileUrl, fileName, fileSize, mimeType) are opaque to the lifecycle and are
not carried in the records.  The zod email validator `z.string().email()`
is an external library predicate and is treated as an interface parameter
`validEmail : String → Bool`.
-/

namespace PayFlow

/-- Document status enum of the Prisma schema used throughout the routers. -/
inductive DocStatus
  | DRAFT
  | SENT
  | COMPLETED
  | EXPIRED
  | CANCELLED
deriving DecidableEq, Repr, Fintype

/-- Signature status enum of the Prisma schema used throughout the routers. -/
inductive SigStatus
  | PENDING
  | SIGNED
  | DECLINED
  | EXPIRED
deriving DecidableEq, Repr, Fintype

/-- A row of the Signature table (lifecycle-relevant columns). -/
structure Signature where
  id : Nat
  documentId : Nat
  recipientEmail : String
  recipientName : Option String := none
  status : SigStatus := .PENDING
  signatureData : Option String := none
  signedAt : Option Nat := none
  ipAddress : Option String := none
deriving DecidableEq, Repr

/-- A row of the Document table (lifecycle-relevant columns). -/
structure Document where
  id : Nat
  senderId : Nat
  title : String
  description : Option String := none
  status : DocStatus := .DRAFT
  expiresAt : Option Nat := none
deriving DecidableEq, Repr

/-- The persistent store: the two tables the lifecycle engine touches. -/
structure DB where
  documents : List Document
  signatures : List Signature
deriving DecidableEq, Repr

/-- Errors surfaced by the handlers.  `NotFound` is TRPC `NOT_FOUND`;
`AlreadyProcessed` is the `BAD_REQUEST` with message
"Signature has already been processed" (the spec calls it `AlreadyResolved`);
`DocExpired` is the `FORBIDDEN` with message "Document has expired"
(the spec calls it `Expired`); `Forbidden` is TRPC `FORBIDDEN` for ownership;
`ValidationFailed` is a zod input rejection (the spec calls it
`ValidationError`). -/
inductive ApiError
  | NotFound
  | AlreadyProcessed
  | DocExpired
  | Forbidden
  | ValidationFailed
deriving DecidableEq, Repr

/-- Decidable equality of handler results, so concrete runs can be settled
by `decide`. -/
instance {ε α : Type} [DecidableEq ε] [DecidableEq α] : DecidableEq (Except ε α)
  | .ok a, .ok b => decidable_of_iff (a = b) (by simp)
  | .error e, .error f => decidable_of_iff (e = f) (by simp)
  | .ok _, .error _ => .isFalse (fun hc => Except.noConfusion hc)
  | .error _, .ok _ => .isFalse (fun hc => Except.noConfusion hc)

/-- `db.signature.findUnique(\x7b where: \x7b id \x7d \x7d)`. -/
def findSignature (db : DB) (id : Nat) : Option Signature :=
  db.signatures.find? (fun s => s.id == id)

/-- `db.document.findUnique(\x7b where: \x7b id \x7d \x7d)`. -/
def findDocument (db : DB) (id : Nat) : Option Document :=
  db.documents.find? (fun d => d.id == id)

/-- `db.signature.update(\x7b where: \x7b id \x7d, data \x7d)`: rewrite the
rows whose id matches. -/
def updateSignatureRow (db : DB) (id : Nat) (f : Signature → Signature) : DB :=
  { db with signatures := db.signatures.map (fun s => if s.id = id then f s else s) }

/-- `db.document.update(\x7b where: \x7b id \x7d, data \x7d)`. -/
def updateDocumentRow (db : DB) (id : Nat) (f : Document → Document) : DB :=
  { db with documents := db.documents.map (fun d => if d.id = id then f d else d) }

/-- The `include: \x7b signatures: true \x7d` relation read: all signatures of
a document. -/
def signaturesOf (db : DB) (documentId : Nat) : List Signature :=
  db.signatures.filter (fun s => s.documentId == documentId)

/-- The lazy expiration test `document.expiresAt && document.expiresAt < new Date()`. -/
def expiredBy (doc : Document) (now : Nat) : Bool :=
  match doc.expiresAt with
  | some t => t < now
  | none => false

/-- Input of `signaturesRouter.sign`. -/
structure SignInput where
  signatureId : Nat
  signatureData : String
  ipAddress : Option String := none
deriving DecidableEq, Repr

/-- The `data` written by the sign update: payload, timestamp, origin
address, status SIGNED. -/
def signedWith (input : SignInput) (now : Nat) (s : Signature) : Signature :=
  { s with signatureData := some input.signatureData
         , signedAt := some now
         , ipAddress := input.ipAddress
         , status := .SIGNED }

/-- The effectful tail shared by both sign handlers: write the signature,
re-read the siblings of document `docId`, and promote the document to
COMPLETED when every sibling is SIGNED. -/
def signApply (db : DB) (now : Nat) (input : SignInput) (docId : Nat) : DB :=
  let db1 := updateSignatureRow db input.signatureId (signedWith input now)
  if (signaturesOf db1 docId).all (fun sig => sig.status == .SIGNED) then
    updateDocumentRow db1 docId (fun d => { d with status := .COMPLETED })
  else db1

/-- `signaturesRouter.sign` (enhanced variant): look the signature up with its
document, reject a missing or already-resolved signature, expire it lazily
when the parent document's deadline has passed, otherwise record the payload
and timestamp, re-read the siblings and promote the document to COMPLETED
when every sibling is SIGNED.  Returns the new store and the handler
result. -/
def sign (db : DB) (now : Nat) (input : SignInput) : DB × Except ApiError Signature :=
  match findSignature db input.signatureId with
  | none => (db, .error .NotFound)
  | some existingSignature =>
    match findDocument db existingSignature.documentId with
    | none => (db, .error .NotFound)
    | some doc =>
      if existingSignature.status ≠ .PENDING then
        (db, .error .AlreadyProcessed)
      else if expiredBy doc now then
        (updateSignatureRow db input.signatureId (fun s => { s with status := .EXPIRED }),
         .error .DocExpired)
      else
        (signApply db now input existingSignature.documentId,
         .ok (signedWith input now existingSignature))

/-- `signaturesRouter.decline` (enhanced variant): reject a missing or
already-resolved signature, otherwise set it DECLINED.  The parent document
is not read and not written. -/
def decline (db : DB) (signatureId : Nat) : DB × Except ApiError Signature :=
  match findSignature db signatureId with
  | none => (db, .error .NotFound)
  | some signature =>
    if signature.status ≠ .PENDING then
      (db, .error .AlreadyProcessed)
    else
      (updateSignatureRow db signatureId (fun s => { s with status := .DECLINED }),
       .ok { signature with status := .DECLINED })

/-- `signaturesRouter.sign` (simple variant): update the signature row
unconditionally (no PENDING check, no expiry check), then run the same
all-signed completion check.  A missing row is a Prisma update failure. -/
def signSimple (db : DB) (now : Nat) (input : SignInput) : DB × Except ApiError Signature :=
  match findSignature db input.signatureId with
  | none => (db, .error .NotFound)
  | some existingSignature =>
    (signApply db now input existingSignature.documentId,
     .ok (signedWith input now existingSignature))

/-- `signaturesRouter.decline` (simple variant): set DECLINED
unconditionally. -/
def declineSimple (db : DB) (signatureId : Nat) : DB × Except ApiError Signature :=
  match findSignature db signatureId with
  | none => (db, .error .NotFound)
  | some signature =>
    (updateSignatureRow db signatureId (fun s => { s with status := .DECLINED }),
     .ok { signature with status := .DECLINED })

/-- `documentsRouter.updateStatus` (enhanced variant): find the caller's
document, then write the requested status with no precondition on the
current status and no look at the signatures. -/
def updateStatus (db : DB) (userId : Nat) (id : Nat) (status : DocStatus) :
    DB × Except ApiError Document :=
  match db.documents.find? (fun d => d.id == id && d.senderId == userId) with
  | none => (db, .error .NotFound)
  | some document =>
    (updateDocumentRow db id (fun d => { d with status := status }),
     .ok { document with status := status })

/-- `documentsRouter.batchUpdateStatus`: `updateMany` of the requested status
over the caller's documents among the given ids; returns the match count. -/
def batchUpdateStatus (db : DB) (userId : Nat) (documentIds : List Nat)
    (status : DocStatus) : DB × Nat :=
  ({ db with documents := db.documents.map (fun d =>
      if documentIds.contains d.id && d.senderId == userId then
        { d with status := status }
      else d) },
   db.documents.countP (fun d => documentIds.contains d.id && d.senderId == userId))

/-- `signaturesRouter.cancelSignatures`: read the PENDING signatures among the
given ids, refuse when one of them belongs to another sender's document, then
`updateMany` sets status EXPIRED on EVERY row whose id is listed — the update
filter repeats only the id list, not the PENDING condition.  Returns the
count of the PENDING rows initially found. -/
def cancelSignatures (db : DB) (userId : Nat) (signatureIds : List Nat) :
    DB × Except ApiError Nat :=
  let signatures := db.signatures.filter
    (fun s => signatureIds.contains s.id && s.status == .PENDING)
  let unauthorized := signatures.filter (fun s =>
    match findDocument db s.documentId with
    | some d => d.senderId ≠ userId
    | none => false)
  if unauthorized ≠ [] then
    (db, .error .Forbidden)
  else
    ({ db with signatures := db.signatures.map (fun s =>
        if signatureIds.contains s.id then { s with status := .EXPIRED } else s) },
     .ok signatures.length)

/-- A recipient entry of `documentsRouter.create`. -/
structure Recipient where
  email : String
  name : Option String := none
deriving DecidableEq, Repr

/-- Lifecycle-relevant input of `documentsRouter.create` (enhanced variant). -/
structure CreateInput where
  title : String
  description : Option String := none
  recipients : List Recipient
  expiresAt : Option Nat := none
  sendImmediately : Bool := false
deriving DecidableEq, Repr

/-- The zod input validation of `documentsRouter.create`: title 1..200,
description at most 1000, recipients 1..10 each with a valid email,
expiration in the future.  There is no duplicate-email check.  `validEmail`
is the `z.string().email()` predicate, taken as a parameter. -/
def validCreateInput (validEmail : String → Bool) (now : Nat) (input : CreateInput) : Bool :=
  decide (1 ≤ input.title.length) && decide (input.title.length ≤ 200) &&
  (match input.description with
   | some d => decide (d.length ≤ 1000)
   | none => true) &&
  decide (1 ≤ input.recipients.length) && decide (input.recipients.length ≤ 10) &&
  input.recipients.all (fun r => validEmail r.email) &&
  (match input.expiresAt with
   | some t => decide (now ≤ t)
   | none => true)

/-- The nested `signatures.create` of `documentsRouter.create`: one PENDING
row per recipient entry, in batch order.  `sigIdStart + index` stands for
the generated ids. -/
def createdSignatures (docId sigIdStart : Nat) (recipients : List Recipient) :
    List Signature :=
  recipients.enum.map (fun p =>
    { id := sigIdStart + p.1
    , documentId := docId
    , recipientEmail := p.2.email
    , recipientName := p.2.name })

/-- The document row inserted by `documentsRouter.create`. -/
def createdDocument (userId docId : Nat) (input : CreateInput) : Document :=
  { id := docId
  , senderId := userId
  , title := input.title
  , description := input.description
  , status := if input.sendImmediately then .SENT else .DRAFT
  , expiresAt := input.expiresAt }

/-- `documentsRouter.create` (enhanced variant): zod validates the whole input
before the handler runs, so a failed validation leaves the store untouched;
on success one document row and one PENDING signature row per recipient entry
are inserted in a single nested create.  `docId` and `sigIdStart` stand for
the generated cuids. -/
def createDocument (validEmail : String → Bool) (db : DB) (now : Nat)
    (userId : Nat) (docId : Nat) (sigIdStart : Nat) (input : CreateInput) :
    DB × Except ApiError (Document × List Signature) :=
  if validCreateInput validEmail now input then
    let doc := createdDocument userId docId input
    let sigs := createdSignatures docId sigIdStart input.recipients
    ({ documents := db.documents ++ [doc], signatures := db.signatures ++ sigs },
     .ok (doc, sigs))
  else
    (db, .error .ValidationFailed)

/-- Condition of the expiration sweep on a document: SENT with a deadline at
or before `now`. -/
def sweepHits (now : Nat) (d : Document) : Bool :=
  d.status == .SENT &&
  (match d.expiresAt with
   | some t => decide (t ≤ now)
   | none => false)

/-- Modelled from the spec: the repository contains no expiration sweeper
(`sweepExpired` appears only in the spec, sections 4.4 and 6); only the lazy
per-access check of `sign` exists in the source.  Following the spec's words:
`sweep(now)` scans the documents with status SENT and `expiresAt <= now`,
transitions each of them to EXPIRED together with their PENDING signatures,
leaves other rows alone, and returns the two counts. -/
def sweepExpired (db : DB) (now : Nat) : DB × Nat × Nat :=
  let expiredIds := (db.documents.filter (sweepHits now)).map (fun d => d.id)
  let sigHit : Signature → Bool := fun s =>
    expiredIds.contains s.documentId && s.status == .PENDING
  ({ documents := db.documents.map (fun d =>
       if sweepHits now d then { d with status := .EXPIRED } else d)
   , signatures := db.signatures.map (fun s =>
       if sigHit s then { s with status := .EXPIRED } else s) },
   expiredIds.length,
   db.signatures.countP sigHit)

set_option maxRecDepth 10000

/-! Helper lemmas about the store primitives. -/

lemma documents_updateSignatureRow (db : DB) (id : Nat) (f : Signature → Signature) :
    (updateSignatureRow db id f).documents = db.documents := rfl

lemma signatures_updateDocumentRow (db : DB) (id : Nat) (f : Document → Document) :
    (updateDocumentRow db id f).signatures = db.signatures := rfl

lemma findSignature_updateSignatureRow (db : DB) (id i : Nat) (f : Signature → Signature)
    (hf : ∀ s, (f s).id = s.id) :
    findSignature (updateSignatureRow db id f) i =
      (findSignature db i).map (fun s => if s.id = id then f s else s) := by
  unfold findSignature updateSignatureRow
  rw [List.find?_map]
  have hpred : ((fun s => s.id == i) ∘ fun s => if s.id = id then f s else s) =
      (fun s : Signature => s.id == i) := by
    funext s
    by_cases h : s.id = id
    · simp [Function.comp, h, hf]
    · simp [Function.comp, h]
  rw [hpred]

lemma findDocument_updateDocumentRow (db : DB) (id i : Nat) (f : Document → Document)
    (hf : ∀ d, (f d).id = d.id) :
    findDocument (updateDocumentRow db id f) i =
      (findDocument db i).map (fun d => if d.id = id then f d else d) := by
  unfold findDocument updateDocumentRow
  rw [List.find?_map]
  have hpred : ((fun d => d.id == i) ∘ fun d => if d.id = id then f d else d) =
      (fun d : Document => d.id == i) := by
    funext d
    by_cases h : d.id = id
    · simp [Function.comp, h, hf]
    · simp [Function.comp, h]
  rw [hpred]

lemma signedWith_id (input : SignInput) (now : Nat) (s : Signature) :
    (signedWith input now s).id = s.id := rfl

lemma findSignature_signApply (db : DB) (now : Nat) (input : SignInput) (docId i : Nat) :
    findSignature (signApply db now input docId) i =
      (findSignature db i).map
        (fun s => if s.id = input.signatureId then signedWith input now s else s) := by
  simp only [signApply]
  split
  · rw [show ∀ dbx idx fx, findSignature (updateDocumentRow dbx idx fx) i = findSignature dbx i
        from fun _ _ _ => rfl]
    exact findSignature_updateSignatureRow db input.signatureId i _ (signedWith_id input now)
  · exact findSignature_updateSignatureRow db input.signatureId i _ (signedWith_id input now)

lemma sign_ok_elim (db : DB) (now : Nat) (input : SignInput) (db2 : DB) (sig : Signature)
    (h : sign db now input = (db2, .ok sig)) :
    ∃ s doc, findSignature db input.signatureId = some s ∧
      s.status = .PENDING ∧
      findDocument db s.documentId = some doc ∧
      expiredBy doc now = false ∧
      sig = signedWith input now s ∧
      db2 = signApply db now input s.documentId := by
  unfold sign at h
  cases hfs : findSignature db input.signatureId with
  | none => rw [hfs] at h; simp at h
  | some s =>
    rw [hfs] at h
    dsimp only at h
    cases hfd : findDocument db s.documentId with
    | none => rw [hfd] at h; simp at h
    | some doc =>
      rw [hfd] at h
      dsimp only at h
      by_cases hp : s.status = .PENDING
      · by_cases he : expiredBy doc now
        · simp [hp, he] at h
        · simp only [hp, ne_eq, not_true_eq_false, if_false, he,
            Bool.false_eq_true, Prod.mk.injEq] at h
          exact ⟨s, doc, rfl, hp, hfd, Bool.eq_false_iff.mpr he,
            (Except.ok.inj h.2).symm, h.1.symm⟩
      · simp [hp] at h

/-- C5 (counterexample): the claim requires `sign` to fail with
`InvalidState` when the parent document is not SENT; on a CANCELLED
document with a PENDING signature, `sign` succeeds, marks the signature
SIGNED, and even promotes the CANCELLED document to COMPLETED. -/
def c5DB : DB :=
  { documents := [{ id := 1, senderId := 7, title := "d", status := .CANCELLED }]
  , signatures := [{ id := 1, documentId := 1, recipientEmail := "a@x.com" }] }

theorem sign_succeeds_on_cancelled_document :
    (sign c5DB 5 { signatureId := 1, signatureData := "p" }).2 =
      .ok { id := 1, documentId := 1, recipientEmail := "a@x.com"
          , status := .SIGNED, signatureData := some "p", signedAt := some 5 } ∧
    (findSignature (sign c5DB 5 { signatureId := 1, signatureData := "p" }).1 1).map
      (fun s => s.status) = some .SIGNED ∧
    (findDocument (sign c5DB 5 { signatureId := 1, signatureData := "p" }).1 1).map
      (fun d => d.status) = some .COMPLETED := by
  refine ⟨by decide, by decide, by decide⟩

/-- C5 (amended): `sign` succeeds exactly when the signature is PENDING and
the parent document's deadline (when set) has not passed; the parent
document's status is never consulted — a DRAFT, CANCELLED or EXPIRED
document does not make `sign` fail, and there is no `InvalidState` path. -/
theorem sign_ignores_document_status (db : DB) (now : Nat) (input : SignInput)
    (s : Signature) (doc : Document)
    (hs : findSignature db input.signatureId = some s)
    (hp : s.status = .PENDING)
    (hd : findDocument db s.documentId = some doc)
    (he : expiredBy doc now = false) :
    sign db now input = (signApply db now input s.documentId, .ok (signedWith input now s)) ∧
    (findSignature (sign db now input).1 input.signatureId).map (fun t => t.status) =
      some .SIGNED := by
  have h1 : sign db now input =
      (signApply db now input s.documentId, .ok (signedWith input now s)) := by
    unfold sign
    rw [hs]
    dsimp only
    rw [hd]
    dsimp only
    simp [hp, he]
  refine ⟨h1, ?_⟩
  rw [h1]
  have hid : s.id = input.signatureId := by
    have := List.find?_some hs
    simpa using this
  rw [findSignature_signApply, hs]
  simp [hid, signedWith]

/-- Witness for C5's amended theorem: a DRAFT parent document. -/
def c5wDB : DB :=
  { documents := [{ id := 1, senderId := 7, title := "d", status := .DRAFT }]
  , signatures := [{ id := 1, documentId := 1, recipientEmail := "a@x.com" }] }

theorem sign_ignores_document_status_witness :
    sign c5wDB 5 { signatureId := 1, signatureData := "p" } =
      (signApply c5wDB 5 { signatureId := 1, signatureData := "p" } 1,
       .ok (signedWith { signatureId := 1, signatureData := "p" } 5
         { id := 1, documentId := 1, recipientEmail := "a@x.com" })) ∧
    (findSignature (sign c5wDB 5 { signatureId := 1, signatureData := "p" }).1 1).map
      (fun t => t.status) = some .SIGNED :=
  sign_ignores_document_status c5wDB 5 { signatureId := 1, signatureData := "p" }
    { id := 1, documentId := 1, recipientEmail := "a@x.com" }
    { id := 1, senderId := 7, title := "d", status := .DRAFT } rfl rfl rfl rfl

/-- Store for C1: a SENT document of sender 7 whose only signature is still
PENDING. -/
def c1DB : DB :=
  { documents := [{ id := 1, senderId := 7, title := "d", status := .SENT }]
  , signatures := [{ id := 1, documentId := 1, recipientEmail := "a@x.com" }] }

/-- C1 (counterexample): `updateStatus` lets the sender set a document to
COMPLETED while its only signature is still PENDING, so the claimed
iff-invariant between COMPLETED and all-signatures-SIGNED does not hold and
is not protected against `updateStatus`/`batchUpdateStatus`. -/
theorem updateStatus_completes_with_pending_sig :
    (updateStatus c1DB 7 1 .COMPLETED).2 =
      .ok { id := 1, senderId := 7, title := "d", status := .COMPLETED } ∧
    (findDocument (updateStatus c1DB 7 1 .COMPLETED).1 1).map (fun d => d.status) =
      some .COMPLETED ∧
    (findSignature (updateStatus c1DB 7 1 .COMPLETED).1 1).map (fun s => s.status) =
      some .PENDING := by
  refine ⟨by decide, by decide, by decide⟩

/-- C1 (amended): the completion direction holds for the `sign` path — when a
successful `sign` leaves every sibling signature SIGNED, the parent document
is COMPLETED immediately, within the same operation.  But the protection the
claim asserts does not exist: `updateStatus` (and `batchUpdateStatus`)
writes any requested status, COMPLETED included, without looking at the
signatures. -/
theorem sign_completion_and_updateStatus_unchecked :
    (∀ db now input db2 sig, sign db now input = (db2, .ok sig) →
       (signaturesOf db2 sig.documentId).all (fun t => t.status == .SIGNED) = true →
       (findDocument db2 sig.documentId).map (fun d => d.status) =
         (findDocument db sig.documentId).map (fun _ => DocStatus.COMPLETED)) ∧
    (∀ db uid id st db2 doc2, updateStatus db uid id st = (db2, .ok doc2) →
       doc2.status = st ∧ db2.signatures = db.signatures) := by
  constructor
  · intro db now input db2 sig h hall
    obtain ⟨s, doc, hfs, hp, hfd, he, hsig, hdb2⟩ := sign_ok_elim db now input db2 sig h
    have hdocid : sig.documentId = s.documentId := by rw [hsig]; rfl
    rw [hdocid] at hall ⊢
    have hdid : doc.id = s.documentId := by
      have := List.find?_some hfd
      simpa using this
    by_cases hc : ((signaturesOf (updateSignatureRow db input.signatureId (signedWith input now))
        s.documentId).all (fun t => t.status == .SIGNED)) = true
    · have hdb2x : db2 = updateDocumentRow
          (updateSignatureRow db input.signatureId (signedWith input now)) s.documentId
          (fun d => { d with status := .COMPLETED }) := by
        rw [hdb2]
        simp only [signApply]
        rw [if_pos hc]
      rw [hdb2x]
      rw [findDocument_updateDocumentRow
        (updateSignatureRow db input.signatureId (signedWith input now))
        s.documentId s.documentId
        (fun d => { d with status := .COMPLETED }) (fun d => rfl)]
      have hunch : findDocument (updateSignatureRow db input.signatureId (signedWith input now))
          s.documentId = findDocument db s.documentId := rfl
      rw [hunch, hfd]
      simp [hdid]
    · exfalso
      apply hc
      have hdb2x : db2 = updateSignatureRow db input.signatureId (signedWith input now) := by
        rw [hdb2]
        simp only [signApply]
        rw [if_neg hc]
      rw [hdb2x] at hall
      exact hall
  · intro db uid id st db2 doc2 h
    unfold updateStatus at h
    cases hf : db.documents.find? (fun d => d.id == id && d.senderId == uid) with
    | none => rw [hf] at h; simp at h
    | some d =>
      rw [hf] at h
      dsimp only at h
      have h1 : updateDocumentRow db id (fun x => { x with status := st }) = db2 :=
        congrArg Prod.fst h
      have h2 : ({ d with status := st } : Document) = doc2 :=
        Except.ok.inj (congrArg Prod.snd h)
      constructor
      · rw [← h2]
      · rw [← h1]
        rfl

/-- Witness for C1's amended theorem: signing the only signature completes
the document, and `updateStatus` succeeds with the requested status while
leaving the signatures untouched. -/
theorem sign_completion_and_updateStatus_unchecked_witness :
    ((findDocument (sign c1DB 5 { signatureId := 1, signatureData := "p" }).1 1).map
        (fun d => d.status) =
      (findDocument c1DB 1).map (fun _ => DocStatus.COMPLETED)) ∧
    (({ id := 1, senderId := 7, title := "d", status := .COMPLETED : Document }).status =
        DocStatus.COMPLETED ∧
      (updateStatus c1DB 7 1 .COMPLETED).1.signatures = c1DB.signatures) :=
  ⟨sign_completion_and_updateStatus_unchecked.1 c1DB 5 { signatureId := 1, signatureData := "p" }
      (sign c1DB 5 { signatureId := 1, signatureData := "p" }).1
      (signedWith { signatureId := 1, signatureData := "p" } 5
        { id := 1, documentId := 1, recipientEmail := "a@x.com" })
      (by decide) (by decide),
   sign_completion_and_updateStatus_unchecked.2 c1DB 7 1 .COMPLETED
      (updateStatus c1DB 7 1 .COMPLETED).1
      { id := 1, senderId := 7, title := "d", status := .COMPLETED }
      (by decide)⟩

/-- Store for C3: a SENT document with three PENDING signatures. -/
def c3DB : DB :=
  { documents := [{ id := 1, senderId := 7, title := "d", status := .SENT }]
  , signatures :=
      [ { id := 1, documentId := 1, recipientEmail := "a@x.com" }
      , { id := 2, documentId := 1, recipientEmail := "b@x.com" }
      , { id := 3, documentId := 1, recipientEmail := "c@x.com" } ] }

/-- The C3 run: decline the first signature, then sign the other two. -/
def c3Run : DB :=
  (sign (sign (decline c3DB 1).1 5 { signatureId := 2, signatureData := "p" }).1
    6 { signatureId := 3, signatureData := "q" }).1

/-- C3 (counterexample): after declining one of three signatures and signing
the remaining two, the document is still SENT — the completion check
requires every signature, the DECLINED one included, to be SIGNED, so the
claim's "once the remaining two Signatures become SIGNED the Document
becomes COMPLETED" is false. -/
theorem decline_blocks_completion :
    (findSignature c3Run 1).map (fun s => s.status) = some .DECLINED ∧
    (findSignature c3Run 2).map (fun s => s.status) = some .SIGNED ∧
    (findSignature c3Run 3).map (fun s => s.status) = some .SIGNED ∧
    (findDocument c3Run 1).map (fun d => d.status) = some .SENT := by
  refine ⟨by decide, by decide, by decide, by decide⟩

/-- C3 (amended): declining never changes any document row, and a DECLINED
sibling permanently blocks completion — a successful `sign` in the presence
of a DECLINED sibling also leaves every document row unchanged, so the
document stays SENT and never reaches COMPLETED while a sibling is
DECLINED. -/
theorem decline_inert_and_blocking :
    (∀ db id db2 r, decline db id = (db2, r) → db2.documents = db.documents) ∧
    (∀ db now input db2 sig, sign db now input = (db2, .ok sig) →
       (∃ t ∈ signaturesOf db2 sig.documentId, t.status = .DECLINED) →
       db2.documents = db.documents) := by
  constructor
  · intro db id db2 r h
    unfold decline at h
    cases hf : findSignature db id with
    | none =>
      rw [hf] at h
      have h1 : db = db2 := congrArg Prod.fst h
      rw [← h1]
    | some s =>
      rw [hf] at h
      dsimp only at h
      by_cases hp : s.status ≠ .PENDING
      · rw [if_pos hp] at h
        have h1 : db = db2 := congrArg Prod.fst h
        rw [← h1]
      · rw [if_neg hp] at h
        have h1 : updateSignatureRow db id (fun t => { t with status := .DECLINED }) = db2 :=
          congrArg Prod.fst h
        rw [← h1]
        rfl
  · intro db now input db2 sig h hdecl
    obtain ⟨s, doc, hfs, hp, hfd, he, hsig, hdb2⟩ := sign_ok_elim db now input db2 sig h
    have hdocid : sig.documentId = s.documentId := by rw [hsig]; rfl
    rw [hdocid] at hdecl
    by_cases hc : ((signaturesOf (updateSignatureRow db input.signatureId (signedWith input now))
        s.documentId).all (fun t => t.status == .SIGNED)) = true
    · exfalso
      obtain ⟨t, ht, htd⟩ := hdecl
      have hsigs : signaturesOf db2 s.documentId =
          signaturesOf (updateSignatureRow db input.signatureId (signedWith input now))
            s.documentId := by
        rw [hdb2]
        simp only [signApply]
        rw [if_pos hc]
        rfl
      rw [hsigs] at ht
      have hone := List.all_eq_true.mp hc t ht
      rw [htd] at hone
      simp at hone
    · have hdb2x : db2 = updateSignatureRow db input.signatureId (signedWith input now) := by
        rw [hdb2]
        simp only [signApply]
        rw [if_neg hc]
      rw [hdb2x]
      rfl

/-- Store for the C3 witness: one DECLINED and one PENDING signature. -/
def c3wDB : DB :=
  { documents := [{ id := 1, senderId := 7, title := "d", status := .SENT }]
  , signatures :=
      [ { id := 1, documentId := 1, recipientEmail := "a@x.com", status := .DECLINED }
      , { id := 2, documentId := 1, recipientEmail := "b@x.com" } ] }

theorem decline_inert_and_blocking_witness :
    ((decline c3DB 1).1.documents = c3DB.documents) ∧
    ((sign c3wDB 5 { signatureId := 2, signatureData := "p" }).1.documents =
      c3wDB.documents) :=
  ⟨decline_inert_and_blocking.1 c3DB 1 (decline c3DB 1).1 (decline c3DB 1).2 rfl,
   decline_inert_and_blocking.2 c3wDB 5 { signatureId := 2, signatureData := "p" }
     (sign c3wDB 5 { signatureId := 2, signatureData := "p" }).1
     (signedWith { signatureId := 2, signatureData := "p" } 5
       { id := 2, documentId := 1, recipientEmail := "b@x.com" })
     (by decide) (by decide)⟩

/-- Store for C4: a COMPLETED document and a SENT document of the same
sender, the SENT one with a PENDING signature. -/
def c4DB : DB :=
  { documents :=
      [ { id := 1, senderId := 7, title := "d", status := .COMPLETED }
      , { id := 2, senderId := 7, title := "e", status := .SENT } ]
  , signatures := [ { id := 1, documentId := 2, recipientEmail := "a@x.com" } ] }

/-- C4 (counterexample): cancelling via `updateStatus` succeeds on a
COMPLETED document (the claimed DRAFT/SENT precondition is not checked),
and cancelling the SENT document leaves its PENDING signature PENDING — no
cascade to EXPIRED happens in the same step. -/
theorem cancel_no_precondition_no_cascade :
    (updateStatus c4DB 7 1 .CANCELLED).2 =
      .ok { id := 1, senderId := 7, title := "d", status := .CANCELLED } ∧
    (findSignature (updateStatus c4DB 7 2 .CANCELLED).1 1).map (fun s => s.status) =
      some .PENDING ∧
    (findDocument (updateStatus c4DB 7 2 .CANCELLED).1 2).map (fun d => d.status) =
      some .CANCELLED := by
  refine ⟨by decide, by decide, by decide⟩

/-- C4 (amended): `updateStatus` with CANCELLED succeeds for any existing
document of the caller regardless of its current status, rewrites exactly
the rows with that id to CANCELLED, and changes no signature; expiring the
PENDING signatures is a separate `cancelSignatures` call, not part of the
cancellation. -/
theorem updateStatus_cancel_behavior (db : DB) (uid id : Nat) (d : Document)
    (hfind : db.documents.find? (fun x => x.id == id && x.senderId == uid) = some d) :
    (updateStatus db uid id .CANCELLED).2 = .ok { d with status := .CANCELLED } ∧
    (updateStatus db uid id .CANCELLED).1.signatures = db.signatures ∧
    ∀ p ∈ db.documents.zip (updateStatus db uid id .CANCELLED).1.documents,
      (p.1.id = id → p.2 = { p.1 with status := .CANCELLED }) ∧
      (p.1.id ≠ id → p.2 = p.1) := by
  unfold updateStatus
  rw [hfind]
  dsimp only
  refine ⟨rfl, rfl, ?_⟩
  intro p hp
  have hzip : db.documents.zip
      ((updateDocumentRow db id (fun x => { x with status := DocStatus.CANCELLED })).documents) =
      db.documents.map
        (fun a => (a, if a.id = id then { a with status := DocStatus.CANCELLED } else a)) := by
    show db.documents.zip (db.documents.map _) = _
    have hz := List.zip_map' (fun a : Document => a)
      (fun a => if a.id = id then { a with status := DocStatus.CANCELLED } else a) db.documents
    simpa using hz
  rw [hzip] at hp
  obtain ⟨a, ha, rfl⟩ := List.mem_map.mp hp
  constructor
  · intro hidq
    have haid : a.id = id := by simpa using hidq
    simp [haid]
  · intro hidq
    have haid : ¬ a.id = id := by simpa using hidq
    simp [haid]

theorem updateStatus_cancel_behavior_witness :
    ((updateStatus c4DB 7 2 .CANCELLED).2 =
      .ok { id := 2, senderId := 7, title := "e", status := .CANCELLED } ∧
     (updateStatus c4DB 7 2 .CANCELLED).1.signatures = c4DB.signatures) ∧
    (({ id := 2, senderId := 7, title := "e", status := .SENT : Document },
      { id := 2, senderId := 7, title := "e", status := .CANCELLED : Document }).2 =
      { ({ id := 2, senderId := 7, title := "e", status := .SENT : Document }) with
          status := .CANCELLED }) :=
  let h := updateStatus_cancel_behavior c4DB 7 2
    { id := 2, senderId := 7, title := "e", status := .SENT } (by decide)
  ⟨⟨h.1, h.2.1⟩,
   (h.2.2
     ({ id := 2, senderId := 7, title := "e", status := .SENT },
      { id := 2, senderId := 7, title := "e", status := .CANCELLED })
     (by decide)).1 rfl⟩

/-- Store for C8: a SENT document whose only signature is already SIGNED. -/
def c8DB : DB :=
  { documents := [ { id := 1, senderId := 7, title := "d", status := .SENT } ]
  , signatures :=
      [ { id := 1, documentId := 1, recipientEmail := "a@x.com", status := .SIGNED
        , signatureData := some "x", signedAt := some 3 } ] }

/-- C8 (counterexample): `cancelSignatures` on a list containing a SIGNED
signature succeeds (reporting 0 cancelled PENDING rows) and rewrites the
SIGNED signature to EXPIRED — a terminal signature's status is changed by a
bulk operation, refuting the claimed invariant. -/
theorem cancelSignatures_expires_signed :
    (cancelSignatures c8DB 7 [1]).2 = .ok 0 ∧
    (findSignature (cancelSignatures c8DB 7 [1]).1 1).map (fun s => s.status) =
      some .EXPIRED := by
  refine ⟨by decide, by decide⟩

/-- C8 (amended): `sign` and `decline` do reject a resolved signature
(AlreadyResolved, store unchanged), but `cancelSignatures` sets every listed
signature to EXPIRED regardless of its current status, so SIGNED and
DECLINED signatures can still change status through it (and the simple
sign/decline variants overwrite unconditionally). -/
theorem terminal_signature_protection :
    (∀ db now input s doc, findSignature db input.signatureId = some s →
       findDocument db s.documentId = some doc → s.status ≠ .PENDING →
       sign db now input = (db, .error .AlreadyProcessed)) ∧
    (∀ db id s, findSignature db id = some s → s.status ≠ .PENDING →
       decline db id = (db, .error .AlreadyProcessed)) ∧
    (∀ db uid ids db2 n, cancelSignatures db uid ids = (db2, .ok n) →
       ∀ p ∈ db.signatures.zip db2.signatures,
         ids.contains p.1.id = true → p.2.status = .EXPIRED) := by
  refine ⟨?_, ?_, ?_⟩
  · intro db now input s doc hs hd hp
    unfold sign
    rw [hs]
    dsimp only
    rw [hd]
    dsimp only
    rw [if_pos hp]
  · intro db id s hs hp
    unfold decline
    rw [hs]
    dsimp only
    rw [if_pos hp]
  · intro db uid ids db2 n h
    simp only [cancelSignatures] at h
    split at h
    · exact absurd (congrArg Prod.snd h) (by simp)
    · have h1 : { db with signatures := db.signatures.map (fun s =>
          if ids.contains s.id then { s with status := SigStatus.EXPIRED } else s) } = db2 :=
        congrArg Prod.fst h
      have h2 : db2.signatures = db.signatures.map (fun s =>
          if ids.contains s.id then { s with status := SigStatus.EXPIRED } else s) := by
        rw [← h1]
      intro p hp hmem
      rw [h2] at hp
      have hzip : db.signatures.zip (db.signatures.map (fun s =>
          if ids.contains s.id then { s with status := SigStatus.EXPIRED } else s)) =
          db.signatures.map (fun a =>
            (a, if ids.contains a.id then { a with status := SigStatus.EXPIRED } else a)) := by
        have hz := List.zip_map' (fun a : Signature => a)
          (fun a => if ids.contains a.id then { a with status := SigStatus.EXPIRED } else a)
          db.signatures
        simpa using hz
      rw [hzip] at hp
      obtain ⟨a, ha, rfl⟩ := List.mem_map.mp hp
      have haid : a.id ∈ ids := by simpa using hmem
      simp [haid]

theorem terminal_signature_protection_witness :
    (sign c8DB 5 { signatureId := 1, signatureData := "p" } =
      (c8DB, .error .AlreadyProcessed)) ∧
    (decline c8DB 1 = (c8DB, .error .AlreadyProcessed)) ∧
    (({ id := 1, documentId := 1, recipientEmail := "a@x.com", status := .SIGNED
      , signatureData := some "x", signedAt := some 3 : Signature },
      { id := 1, documentId := 1, recipientEmail := "a@x.com", status := .EXPIRED
      , signatureData := some "x", signedAt := some 3 : Signature }).2.status = .EXPIRED) :=
  ⟨terminal_signature_protection.1 c8DB 5 { signatureId := 1, signatureData := "p" }
      { id := 1, documentId := 1, recipientEmail := "a@x.com", status := .SIGNED
      , signatureData := some "x", signedAt := some 3 }
      { id := 1, senderId := 7, title := "d", status := .SENT }
      (by decide) (by decide) (by decide),
   terminal_signature_protection.2.1 c8DB 1
      { id := 1, documentId := 1, recipientEmail := "a@x.com", status := .SIGNED
      , signatureData := some "x", signedAt := some 3 }
      (by decide) (by decide),
   terminal_signature_protection.2.2 c8DB 7 [1] (cancelSignatures c8DB 7 [1]).1 0
      (by decide)
      ({ id := 1, documentId := 1, recipientEmail := "a@x.com", status := .SIGNED
       , signatureData := some "x", signedAt := some 3 },
       { id := 1, documentId := 1, recipientEmail := "a@x.com", status := .EXPIRED
       , signatureData := some "x", signedAt := some 3 })
      (by decide) (by decide)⟩

/-- Store for C9: one SENT document with two PENDING signatures. -/
def c9DB : DB :=
  { documents := [ { id := 1, senderId := 7, title := "d", status := .SENT } ]
  , signatures :=
      [ { id := 1, documentId := 1, recipientEmail := "a@x.com" }
      , { id := 2, documentId := 1, recipientEmail := "b@x.com" } ] }

/-- C9 (counterexample): in the simple sign variant the second `sign` call
on the already SIGNED signature succeeds and overwrites the stored payload
and timestamp — the claim's "the second call fails ... without modifying the
stored payload or signedAt timestamp" is false of that handler. -/
theorem signSimple_overwrites_resolved :
    (findSignature (signSimple
        (signSimple c9DB 10 { signatureId := 1, signatureData := "first" }).1
        20 { signatureId := 1, signatureData := "second" }).1 1).map
      (fun s => (s.status, s.signatureData, s.signedAt)) =
      some (.SIGNED, some "second", some 20) := by decide

/-- Lookup of a document after the sign tail: either unchanged or, when the
completion check fired, with the matching rows promoted to COMPLETED. -/
lemma findDocument_signApply (db : DB) (now : Nat) (input : SignInput) (docId i : Nat) :
    findDocument (signApply db now input docId) i =
      if ((signaturesOf (updateSignatureRow db input.signatureId (signedWith input now))
          docId).all (fun t => t.status == .SIGNED)) = true then
        (findDocument db i).map
          (fun d => if d.id = docId then { d with status := .COMPLETED } else d)
      else findDocument db i := by
  simp only [signApply]
  by_cases hc : ((signaturesOf (updateSignatureRow db input.signatureId (signedWith input now))
      docId).all (fun t => t.status == .SIGNED)) = true
  · rw [if_pos hc, if_pos hc]
    rw [findDocument_updateDocumentRow
      (updateSignatureRow db input.signatureId (signedWith input now)) docId i
      (fun d => { d with status := .COMPLETED }) (fun d => rfl)]
    rfl
  · rw [if_neg hc, if_neg hc]
    rfl

/-- C9 (amended): with the enhanced handler, a first `sign` on a PENDING
signature records the payload and the timestamp, and a second `sign` on the
same signature fails with AlreadyResolved and leaves the store exactly as
the first call left it; the simple sign variant instead overwrites the
stored payload and timestamp on the second call. -/
theorem sign_idempotence (db : DB) (n1 n2 : Nat) (i1 i2 : SignInput)
    (hid : i2.signatureId = i1.signatureId)
    (db1 : DB) (sig : Signature)
    (h1 : sign db n1 i1 = (db1, .ok sig)) :
    sig.status = .SIGNED ∧ sig.signatureData = some i1.signatureData ∧
    sig.signedAt = some n1 ∧
    sign db1 n2 i2 = (db1, .error .AlreadyProcessed) := by
  obtain ⟨s, doc, hfs, hp, hfd, he, hsig, hdb1⟩ := sign_ok_elim db n1 i1 db1 sig h1
  refine ⟨by rw [hsig]; rfl, by rw [hsig]; rfl, by rw [hsig]; rfl, ?_⟩
  have hsid : s.id = i1.signatureId := by
    have hfs' : db.signatures.find? (fun t => t.id == i1.signatureId) = some s := hfs
    have := List.find?_some hfs'
    simpa using this
  have hf2 : findSignature db1 i2.signatureId = some (signedWith i1 n1 s) := by
    rw [hid, hdb1, findSignature_signApply, hfs]
    simp [hsid]
  obtain ⟨doc2, hfd2⟩ : ∃ doc2, findDocument db1 s.documentId = some doc2 := by
    rw [hdb1, findDocument_signApply]
    split
    · exact ⟨_, by rw [hfd]; rfl⟩
    · exact ⟨doc, hfd⟩
  unfold sign
  rw [hf2]
  dsimp only
  rw [show (signedWith i1 n1 s).documentId = s.documentId from rfl, hfd2]
  dsimp only
  rw [if_pos (by simp [signedWith] : (signedWith i1 n1 s).status ≠ SigStatus.PENDING)]

theorem sign_idempotence_witness :
    ((signedWith { signatureId := 1, signatureData := "first" } 10
        { id := 1, documentId := 1, recipientEmail := "a@x.com" }).status = .SIGNED ∧
     (signedWith { signatureId := 1, signatureData := "first" } 10
        { id := 1, documentId := 1, recipientEmail := "a@x.com" }).signatureData =
          some "first" ∧
     (signedWith { signatureId := 1, signatureData := "first" } 10
        { id := 1, documentId := 1, recipientEmail := "a@x.com" }).signedAt = some 10 ∧
     sign (sign c9DB 10 { signatureId := 1, signatureData := "first" }).1 20
        { signatureId := 1, signatureData := "second" } =
       ((sign c9DB 10 { signatureId := 1, signatureData := "first" }).1,
        .error .AlreadyProcessed)) :=
  sign_idempotence c9DB 10 20 { signatureId := 1, signatureData := "first" }
    { signatureId := 1, signatureData := "second" } rfl
    (sign c9DB 10 { signatureId := 1, signatureData := "first" }).1
    (signedWith { signatureId := 1, signatureData := "first" } 10
      { id := 1, documentId := 1, recipientEmail := "a@x.com" })
    (by decide)

/-- C10: `sign` on a PENDING signature of a document whose deadline has
passed fails with the expiry error and, as a side effect, first transitions
that signature to EXPIRED; the other failure modes (missing signature,
already-resolved signature) leave the store untouched. -/
theorem sign_expired_lazy_transition :
    (∀ db now input s doc t, findSignature db input.signatureId = some s →
       s.status = .PENDING → findDocument db s.documentId = some doc →
       doc.expiresAt = some t → t < now →
       sign db now input =
         (updateSignatureRow db input.signatureId (fun x => { x with status := .EXPIRED }),
          .error .DocExpired) ∧
       (findSignature (sign db now input).1 input.signatureId).map (fun x => x.status) =
         some .EXPIRED ∧
       (sign db now input).1.documents = db.documents) ∧
    (∀ db now input, findSignature db input.signatureId = none →
       sign db now input = (db, .error .NotFound)) ∧
    (∀ db now input s doc, findSignature db input.signatureId = some s →
       findDocument db s.documentId = some doc → s.status ≠ .PENDING →
       sign db now input = (db, .error .AlreadyProcessed)) := by
  refine ⟨?_, ?_, ?_⟩
  · intro db now input s doc t hs hp hd hexp hlt
    have hex : expiredBy doc now = true := by
      unfold expiredBy
      rw [hexp]
      simpa using hlt
    have hmain : sign db now input =
        (updateSignatureRow db input.signatureId (fun x => { x with status := .EXPIRED }),
         .error .DocExpired) := by
      unfold sign
      rw [hs]
      dsimp only
      rw [hd]
      dsimp only
      rw [if_neg (by simp [hp]), if_pos hex]
    refine ⟨hmain, ?_, ?_⟩
    · rw [hmain]
      have hsid : s.id = input.signatureId := by
        have hfs' : db.signatures.find? (fun x => x.id == input.signatureId) = some s := hs
        have := List.find?_some hfs'
        simpa using this
      rw [findSignature_updateSignatureRow db input.signatureId input.signatureId
        (fun x => { x with status := .EXPIRED }) (fun x => rfl), hs]
      simp [hsid]
    · rw [hmain]
      rfl
  · intro db now input hs
    unfold sign
    rw [hs]
  · intro db now input s doc hs hd hp
    unfold sign
    rw [hs]
    dsimp only
    rw [hd]
    dsimp only
    rw [if_pos hp]

/-- Store for the C10 witness (other failure modes): a SIGNED signature. -/
def c10bDB : DB :=
  { documents := [ { id := 1, senderId := 7, title := "d", status := .SENT } ]
  , signatures :=
      [ { id := 1, documentId := 1, recipientEmail := "a@x.com", status := .SIGNED
        , signatureData := some "x", signedAt := some 3 } ] }

/-- Store for the C10 witness: deadline 4, signed at time 9. -/
def c10DB : DB :=
  { documents :=
      [ { id := 1, senderId := 7, title := "d", status := .SENT, expiresAt := some 4 } ]
  , signatures := [ { id := 1, documentId := 1, recipientEmail := "a@x.com" } ] }

theorem sign_expired_lazy_transition_witness :
    ((sign c10DB 9 { signatureId := 1, signatureData := "p" } =
       (updateSignatureRow c10DB 1 (fun x => { x with status := .EXPIRED }),
        .error .DocExpired)) ∧
     (findSignature (sign c10DB 9 { signatureId := 1, signatureData := "p" }).1 1).map
       (fun x => x.status) = some .EXPIRED ∧
     (sign c10DB 9 { signatureId := 1, signatureData := "p" }).1.documents =
       c10DB.documents) ∧
    (sign c10bDB 9 { signatureId := 2, signatureData := "p" } =
      (c10bDB, .error .NotFound)) ∧
    (sign c10bDB 9 { signatureId := 1, signatureData := "p" } =
      (c10bDB, .error .AlreadyProcessed)) :=
  ⟨sign_expired_lazy_transition.1 c10DB 9 { signatureId := 1, signatureData := "p" }
      { id := 1, documentId := 1, recipientEmail := "a@x.com" }
      { id := 1, senderId := 7, title := "d", status := .SENT, expiresAt := some 4 } 4
      (by decide) (by decide) (by decide) (by decide) (by decide),
   sign_expired_lazy_transition.2.1 c10bDB 9 { signatureId := 2, signatureData := "p" }
      (by decide),
   sign_expired_lazy_transition.2.2 c10bDB 9 { signatureId := 1, signatureData := "p" }
      { id := 1, documentId := 1, recipientEmail := "a@x.com", status := .SIGNED
      , signatureData := some "x", signedAt := some 3 }
      { id := 1, senderId := 7, title := "d", status := .SENT }
      (by decide) (by decide) (by decide)⟩

/-- Pointwise shape of a list zipped with a map over its enumeration. -/
lemma zip_enumFrom_map {α β : Type} (l : List α) (n : Nat) (f : Nat × α → β) :
    l.zip ((l.enumFrom n).map f) = (l.enumFrom n).map (fun p => (p.2, f p)) := by
  induction l generalizing n with
  | nil => rfl
  | cons a l ih =>
    simp only [List.enumFrom, List.map, List.zip, List.zipWith]
    congr 1
    exact ih (n + 1)

/-- A concrete email-validity predicate used to run the interface parameter
on closed inputs; the addresses fed to it below are also accepted by zod's
validator. -/
def emailProbe : String → Bool := fun s => s.data.contains '@'

/-- C6 (counterexample): a duplicated recipient email passes validation —
`create` succeeds and inserts one PENDING signature row per entry, two of
them with the same email; the claimed no-duplicates requirement does not
exist in the code. -/
theorem create_accepts_duplicate_recipients :
    (createDocument emailProbe { documents := [], signatures := [] } 0 7 1 10
        { title := "t"
        , recipients := [ { email := "dup@x.com" }, { email := "dup@x.com" } ] }).2 =
      .ok ({ id := 1, senderId := 7, title := "t", status := .DRAFT },
        [ { id := 10, documentId := 1, recipientEmail := "dup@x.com" }
        , { id := 11, documentId := 1, recipientEmail := "dup@x.com" } ]) := by decide

/-- C6 (amended): creating/dispatching a document requires 1 to 10
recipients, every email passing the validator, title and deadline
constraints — but no absence of duplicates.  When any recipient fails the
validator the whole operation fails and the store is unchanged (zero
signatures created); when validation passes — duplicates included — exactly
one document row and one PENDING signature row per recipient entry are
appended atomically. -/
theorem create_validation_atomicity :
    (∀ (validEmail : String → Bool) db now uid docId sigIdStart input,
       (∃ r ∈ input.recipients, validEmail r.email = false) →
       createDocument validEmail db now uid docId sigIdStart input =
         ({ documents := db.documents, signatures := db.signatures },
          .error .ValidationFailed)) ∧
    (∀ (validEmail : String → Bool) db now uid docId sigIdStart input,
       validCreateInput validEmail now input = true →
       createDocument validEmail db now uid docId sigIdStart input =
         ({ documents := db.documents ++ [createdDocument uid docId input]
          , signatures := db.signatures ++
              createdSignatures docId sigIdStart input.recipients },
          .ok (createdDocument uid docId input,
               createdSignatures docId sigIdStart input.recipients)) ∧
       (createdSignatures docId sigIdStart input.recipients).length =
         input.recipients.length ∧
       ∀ q ∈ input.recipients.zip (createdSignatures docId sigIdStart input.recipients),
         q.2.recipientEmail = q.1.email ∧ q.2.status = .PENDING ∧
         q.2.documentId = docId) := by
  constructor
  · intro validEmail db now uid docId sigIdStart input hbad
    have hall : input.recipients.all (fun r => validEmail r.email) = false := by
      obtain ⟨r, hr, hrf⟩ := hbad
      rw [List.all_eq_false]
      exact ⟨r, hr, by simp [hrf]⟩
    have hval : validCreateInput validEmail now input = false := by
      unfold validCreateInput
      rw [hall]
      simp
    unfold createDocument
    rw [hval]
    simp
  · intro validEmail db now uid docId sigIdStart input hval
    refine ⟨?_, ?_, ?_⟩
    · unfold createDocument
      rw [hval]
      simp
    · unfold createdSignatures
      simp
    · intro q hq
      unfold createdSignatures at hq
      rw [show input.recipients.enum = input.recipients.enumFrom 0 from rfl,
        zip_enumFrom_map] at hq
      obtain ⟨p, hp, rfl⟩ := List.mem_map.mp hq
      exact ⟨rfl, rfl, rfl⟩

/-- Store and input for the C6 witness. -/
def c6Input : CreateInput :=
  { title := "t"
  , recipients := [ { email := "a@x.com" }, { email := "b@x.com" } ]
  , sendImmediately := true }

theorem create_validation_atomicity_witness :
    (createDocument emailProbe { documents := [], signatures := [] } 0 7 1 10
        { title := "t", recipients := [ { email := "nope" } ] } =
      ({ documents := [], signatures := [] }, .error .ValidationFailed)) ∧
    (createDocument emailProbe { documents := [], signatures := [] } 0 7 1 10 c6Input =
      ({ documents := [] ++ [createdDocument 7 1 c6Input]
       , signatures := [] ++ createdSignatures 1 10 c6Input.recipients },
       .ok (createdDocument 7 1 c6Input, createdSignatures 1 10 c6Input.recipients))) ∧
    ((createdSignatures 1 10 c6Input.recipients).length = c6Input.recipients.length) ∧
    (({ email := "a@x.com" : Recipient },
      { id := 10, documentId := 1, recipientEmail := "a@x.com" : Signature }).2.status =
        .PENDING) :=
  let h := create_validation_atomicity.2 emailProbe { documents := [], signatures := [] }
    0 7 1 10 c6Input (by decide)
  ⟨create_validation_atomicity.1 emailProbe { documents := [], signatures := [] } 0 7 1 10
      { title := "t", recipients := [ { email := "nope" } ] }
      ⟨{ email := "nope" }, by decide, by decide⟩,
   h.1, h.2.1,
   (h.2.2 ({ email := "a@x.com" },
     { id := 10, documentId := 1, recipientEmail := "a@x.com" }) (by decide)).2.1⟩

/-- C7: the sweep, given `now`, transitions every SENT document whose
deadline is at or before `now` to EXPIRED together with that document's
PENDING signatures, leaves SIGNED and DECLINED signatures (and non-matching
documents) unchanged, and returns the count of documents swept and the
count of signatures expired. -/
theorem sweepExpired_spec (db : DB) (now : Nat) :
    ((sweepExpired db now).1.documents.length = db.documents.length ∧
     (sweepExpired db now).1.signatures.length = db.signatures.length) ∧
    (∀ p ∈ db.documents.zip (sweepExpired db now).1.documents,
       (p.1.status = .SENT → ∀ t, p.1.expiresAt = some t → t ≤ now →
          p.2 = { p.1 with status := DocStatus.EXPIRED }) ∧
       (sweepHits now p.1 = false → p.2 = p.1)) ∧
    (∀ q ∈ db.signatures.zip (sweepExpired db now).1.signatures,
       (q.1.status = .PENDING →
          (∃ d ∈ db.documents, d.id = q.1.documentId ∧ sweepHits now d = true) →
          q.2 = { q.1 with status := SigStatus.EXPIRED }) ∧
       (q.1.status = .SIGNED ∨ q.1.status = .DECLINED → q.2 = q.1)) ∧
    ((sweepExpired db now).2.1 = db.documents.countP (sweepHits now) ∧
     (sweepExpired db now).2.2 = db.signatures.countP (fun s =>
       ((db.documents.filter (sweepHits now)).map (fun d => d.id)).contains s.documentId &&
       s.status == .PENDING)) := by
  refine ⟨⟨?_, ?_⟩, ?_, ?_, ?_, ?_⟩
  · simp [sweepExpired]
  · simp [sweepExpired]
  · intro p hp
    have hzip : db.documents.zip ((sweepExpired db now).1.documents) =
        db.documents.map (fun a =>
          (a, if sweepHits now a then { a with status := DocStatus.EXPIRED } else a)) := by
      show db.documents.zip (db.documents.map _) = _
      have hz := List.zip_map' (fun a : Document => a)
        (fun a => if sweepHits now a then { a with status := DocStatus.EXPIRED } else a)
        db.documents
      simpa using hz
    rw [hzip] at hp
    obtain ⟨a, ha, rfl⟩ := List.mem_map.mp hp
    constructor
    · intro hsent t hexp hle
      have hsent2 : a.status = DocStatus.SENT := by simpa using hsent
      have hexp2 : a.expiresAt = some t := by simpa using hexp
      have hhit : sweepHits now a = true := by
        unfold sweepHits
        rw [hsent2, hexp2]
        simpa using hle
      simp [hhit]
    · intro hmiss
      have hmiss2 : sweepHits now a = false := by simpa using hmiss
      simp [hmiss2]
  · intro q hq
    have hzip : db.signatures.zip ((sweepExpired db now).1.signatures) =
        db.signatures.map (fun a =>
          (a, if ((db.documents.filter (sweepHits now)).map (fun d => d.id)).contains
                a.documentId && a.status == .PENDING then
              { a with status := SigStatus.EXPIRED } else a)) := by
      show db.signatures.zip (db.signatures.map _) = _
      have hz := List.zip_map' (fun a : Signature => a)
        (fun a => if ((db.documents.filter (sweepHits now)).map (fun d => d.id)).contains
              a.documentId && a.status == .PENDING then
            { a with status := SigStatus.EXPIRED } else a)
        db.signatures
      simpa using hz
    rw [hzip] at hq
    obtain ⟨a, ha, rfl⟩ := List.mem_map.mp hq
    constructor
    · intro hpend hex
      have hpend2 : a.status = SigStatus.PENDING := by simpa using hpend
      obtain ⟨d, hd, hid, hhit⟩ := hex
      have hid2 : d.id = a.documentId := by simpa using hid
      have hmem : a.documentId ∈ (db.documents.filter (sweepHits now)).map (fun d => d.id) :=
        List.mem_map.mpr ⟨d, List.mem_filter.mpr ⟨hd, hhit⟩, hid2⟩
      simp [hmem, hpend2]
    · intro hterm
      have hterm2 : a.status = SigStatus.SIGNED ∨ a.status = SigStatus.DECLINED := by
        rcases hterm with h | h
        · exact Or.inl (by simpa using h)
        · exact Or.inr (by simpa using h)
      have hcond : (a.status == SigStatus.PENDING) = false := by
        rcases hterm2 with h | h <;> simp [h]
      simp [hcond]
  · simp [sweepExpired, List.countP_eq_length_filter]
  · rfl

/-- Store for the C7 witness: one overdue SENT document (deadline 5, swept at
9) with a PENDING and a SIGNED signature, and one SENT document without a
deadline. -/
def c7DB : DB :=
  { documents :=
      [ { id := 1, senderId := 7, title := "d", status := .SENT, expiresAt := some 5 }
      , { id := 2, senderId := 7, title := "e", status := .SENT } ]
  , signatures :=
      [ { id := 1, documentId := 1, recipientEmail := "a@x.com" }
      , { id := 2, documentId := 1, recipientEmail := "b@x.com", status := .SIGNED } ] }

theorem sweepExpired_spec_witness :
    ((sweepExpired c7DB 9).1.documents.length = c7DB.documents.length ∧
     (sweepExpired c7DB 9).1.signatures.length = c7DB.signatures.length) ∧
    (({ id := 1, senderId := 7, title := "d", status := .SENT, expiresAt := some 5 : Document },
      { id := 1, senderId := 7, title := "d", status := .EXPIRED, expiresAt := some 5 : Document }).2 =
      { ({ id := 1, senderId := 7, title := "d", status := .SENT, expiresAt := some 5 : Document })
          with status := DocStatus.EXPIRED }) ∧
    (({ id := 1, documentId := 1, recipientEmail := "a@x.com" : Signature },
      { id := 1, documentId := 1, recipientEmail := "a@x.com", status := .EXPIRED : Signature }).2 =
      { ({ id := 1, documentId := 1, recipientEmail := "a@x.com" : Signature })
          with status := SigStatus.EXPIRED }) ∧
    (({ id := 2, documentId := 1, recipientEmail := "b@x.com", status := .SIGNED : Signature },
      { id := 2, documentId := 1, recipientEmail := "b@x.com", status := .SIGNED : Signature }).2 =
      ({ id := 2, documentId := 1, recipientEmail := "b@x.com", status := .SIGNED : Signature },
       { id := 2, documentId := 1, recipientEmail := "b@x.com", status := .SIGNED : Signature }).1) ∧
    ((sweepExpired c7DB 9).2.1 = c7DB.documents.countP (sweepHits 9) ∧
     (sweepExpired c7DB 9).2.2 = c7DB.signatures.countP (fun s =>
       ((c7DB.documents.filter (sweepHits 9)).map (fun d => d.id)).contains s.documentId &&
       s.status == .PENDING)) :=
  let h := sweepExpired_spec c7DB 9
  ⟨h.1,
   (h.2.1
     ({ id := 1, senderId := 7, title := "d", status := .SENT, expiresAt := some 5 },
      { id := 1, senderId := 7, title := "d", status := .EXPIRED, expiresAt := some 5 })
     (by decide)).1 rfl 5 rfl (by decide),
   (h.2.2.1
     ({ id := 1, documentId := 1, recipientEmail := "a@x.com" },
      { id := 1, documentId := 1, recipientEmail := "a@x.com", status := .EXPIRED })
     (by decide)).1 rfl
     ⟨{ id := 1, senderId := 7, title := "d", status := .SENT, expiresAt := some 5 },
      by decide, rfl, by decide⟩,
   (h.2.2.1
     ({ id := 2, documentId := 1, recipientEmail := "b@x.com", status := .SIGNED },
      { id := 2, documentId := 1, recipientEmail := "b@x.com", status := .SIGNED })
     (by decide)).2 (Or.inl rfl),
   h.2.2.2⟩

end PayFlow
